import Mathlib

/-!
Shallow embedding of the Clover terminal integration module
(`models/clover_terminal.py`, `controllers/main.py`,
`models/clover_transaction_log.py`).

Conventions of the embedding:
* Odoo `Char`/`Text` fields that Python treats as falsy when unset
  (`False`/`None`/`""`) are modelled as `String` with `""` for "unset".
* `Datetime` values are modelled as `Option Nat` (a `now` parameter stands
  for `fields.Datetime.now()`).
* JSON response bodies are modelled by the inductive `JVal`; the network is
  an oracle (`NetOutcome`) supplied to each call: a parsed HTTP response, a
  timeout, a connection error, or any other transport/parse exception.
* `requests` responses with empty content (`resp.content` falsy) are passed
  as `NetOutcome.response status (JVal.obj []) text`, matching
  `body = resp.json() if resp.content else {}`; a JSON parse failure is
  passed as `NetOutcome.otherExc`, matching the generic `except Exception`.
* Audit rows (`clover.transaction.log` records) are returned as a list of
  `LogEntry` values in creation order; payload snapshots keep the structured
  `JVal` instead of the `json.dumps` string.
-/

/-- Minimal JSON value model for Clover response bodies. -/
inductive JVal where
  | null
  | str (s : String)
  | num (n : Int)
  | bool (b : Bool)
  | arr (elems : List JVal)
  | obj (fields : List (String × JVal))

/-- Python `dict.get(key)` on a JSON object: `none` when the receiver is not
an object or the key is absent. -/
def jGet (j : JVal) (key : String) : Option JVal :=
  match j with
  | .obj fields => fields.lookup key
  | _ => none

/-- Python truthiness of a JSON value (`bool(x)`). -/
def JVal.truthy : JVal → Bool
  | .null => false
  | .str s => s ≠ ""
  | .num n => n ≠ 0
  | .bool b => b
  | .arr l => !l.isEmpty
  | .obj l => !l.isEmpty

/-- Python `str()` coercion of a JSON scalar, used where the code
interpolates a response value into a message or stores it into a Char
field. Containers are summarised (their text is never inspected by the
code paths modelled here). -/
def JVal.render : JVal → String
  | .null => "None"
  | .str s => s
  | .num n => toString n
  | .bool b => if b then "True" else "False"
  | .arr _ => "[...]"
  | .obj _ => "\x7b...\x7d"

/-- Storing an optional JSON value into an Odoo Char field:
`None`/absent store as empty. -/
def pyCharOf : Option JVal → String
  | none => ""
  | some .null => ""
  | some v => v.render

/-- The only exception type raised by the terminal model: `UserError(msg)`. -/
inductive UErr where
  | userError (msg : String)
deriving Repr, DecidableEq

/-- Python `str(exc)` for a `UserError`. -/
def errText : UErr → String
  | .userError m => m

/-- Environment selection field (`environment`). -/
inductive CloverEnvTag where
  | sandbox
  | production_na
  | production_eu
  | production_la
deriving Repr, DecidableEq

/-- One row of the `CLOVER_ENV` regional URL table. -/
structure CloverEnvUrls where
  api_base : String
  web_base : String
  oauth_base : String
deriving Repr, DecidableEq

/-- The `CLOVER_ENV` lookup table (module-level constant). -/
def cloverEnv : CloverEnvTag → CloverEnvUrls
  | .sandbox =>
      { api_base := "https://apisandbox.dev.clover.com"
        web_base := "https://sandbox.dev.clover.com"
        oauth_base := "https://sandbox.dev.clover.com" }
  | .production_na =>
      { api_base := "https://api.clover.com"
        web_base := "https://www.clover.com"
        oauth_base := "https://www.clover.com" }
  | .production_eu =>
      { api_base := "https://api.eu.clover.com"
        web_base := "https://www.eu.clover.com"
        oauth_base := "https://eu.clover.com" }
  | .production_la =>
      { api_base := "https://api.la.clover.com"
        web_base := "https://www.la.clover.com"
        oauth_base := "https://la.clover.com" }

/-- Lifecycle `state` selection of `clover.terminal`
(`draft` is displayed as "Not Configured"). -/
inductive TState where
  | draft
  | testing
  | active
  | inactive
  | error
deriving Repr, DecidableEq

/-- The `clover.terminal` record (the fields the connectivity logic reads
or writes). -/
structure Terminal where
  environment : CloverEnvTag
  merchant_id : String
  device_serial : String
  clover_device_id : String
  app_id : String
  app_secret : String
  raid : String
  api_token : String
  state : TState
  last_ping : Option Nat
  last_error : String
  merchant_name : String
  device_model : String
deriving Repr, DecidableEq

/-- `status` selection of `clover.transaction.log`. -/
inductive LogStatus where
  | pending
  | success
  | error
  | timeout
deriving Repr, DecidableEq

/-- One `clover.transaction.log` row as created by the code
(the generated `request_id` is opaque and elided; payload snapshots keep
the structured JSON instead of its `json.dumps` rendering). -/
structure LogEntry where
  endpoint : String
  http_method : String
  request_payload : Option JVal
  response_payload : Option JVal
  http_status : Option Nat
  status : LogStatus
  error_message : String

/-- Headers of `_get_headers` (REST v3 / management mode). -/
def getHeaders (t : Terminal) : List (String × String) :=
  [("Authorization", "Bearer " ++ t.api_token),
   ("Content-Type", "application/json"),
   ("Accept", "application/json")]

/-- Headers of `_get_connect_headers` (Connect v1 / device-control mode).
Mirrors the source exactly: the gate checks `self.device_serial` (not the
resolved `clover_device_id`), and `X-Clover-Device-Id` carries the serial;
`if idempotency_key:` is Python truthiness, so an empty-string key adds no
header. -/
def connectHeaderList (t : Terminal) (idempotency_key : Option String) :
    List (String × String) :=
  [("Authorization", "Bearer " ++ t.api_token),
   ("Content-Type", "application/json"),
   ("Accept", "application/json"),
   ("X-Clover-Device-Id", t.device_serial),
   ("X-POS-Id", t.raid)] ++
  (match idempotency_key with
   | some k => if k = "" then [] else [("Idempotency-Key", k)]
   | none => [])

/-- Gate and result of `_get_connect_headers` (see `connectHeaderList`). -/
def getConnectHeaders (t : Terminal) (idempotency_key : Option String) :
    Except UErr (List (String × String)) :=
  if t.device_serial = "" then
    .error (.userError "Device serial not set.")
  else
    .ok (connectHeaderList t idempotency_key)

/-- Headers of an `Except` result, `[]` on failure (statement helper). -/
def headersOf (r : Except UErr (List (String × String))) :
    List (String × String) :=
  match r with
  | .ok h => h
  | .error _ => []

/-- Oracle for one `requests.request` call: a parsed response
(status, parsed JSON body, raw text), or one of the transport failures the
code distinguishes. -/
inductive NetOutcome where
  | response (status : Nat) (body : JVal) (text : String)
  | timeout
  | connError
  | otherExc (msg : String)

/-- Error message taken from a non-2xx body:
`body.get('message') or resp.text[:500]`. -/
def extractErrorMsg (body : JVal) (text : String) : String :=
  match jGet body "message" with
  | some v => if v.truthy then v.render else text.take 500
  | none => text.take 500

/-- Request payload snapshot:
`json.dumps(payload) if payload else ''` (falsy payload stores empty). -/
def requestSnapshot (payload : Option JVal) : Option JVal :=
  match payload with
  | some p => if p.truthy then some p else none
  | none => none

/-- The request dispatcher `_api_request`. Returns the call result paired
with the audit rows created during the call, in creation order. The
`timeout` argument is passed to the transport and does not otherwise affect
the modelled behaviour. -/
def api_request (t : Terminal) (method endpoint : String)
    (payload : Option JVal) (timeout : Nat) (connect : Bool)
    (idempotency_key : Option String) (outcome : NetOutcome) :
    Except UErr JVal × List LogEntry :=
  match (if connect then getConnectHeaders t idempotency_key
         else .ok (getHeaders t) : Except UErr (List (String × String))) with
  | .error e => (.error e, [])
  | .ok _headers =>
    let base : LogEntry :=
      { endpoint := endpoint
        http_method := method.toUpper
        request_payload := requestSnapshot payload
        response_payload := none
        http_status := none
        status := .pending
        error_message := "" }
    match outcome with
    | .response status body text =>
      let logv : LogEntry :=
        { base with response_payload := some body, http_status := some status }
      if status = 200 ∨ status = 201 then
        (.ok body, [{ logv with status := .success }])
      else
        let msg := extractErrorMsg body text
        (.error (.userError
            ("Clover API " ++ toString status ++ ": " ++ msg)),
         [{ logv with status := .error, error_message := msg }])
    | .timeout =>
        (.error (.userError "Clover request timed out. Check device/network."),
         [{ base with status := .timeout,
                      error_message := "Request timed out" }])
    | .connError =>
        (.error (.userError "Cannot reach Clover API. Check network."),
         [{ base with status := .error,
                      error_message := "Connection refused" }])
    | .otherExc m =>
        (.error (.userError ("Clover error: " ++ m)),
         [{ base with status := .error, error_message := m }])

/-- Endpoint of the merchant verification call in `action_test_connection`. -/
def merchantEndpoint (t : Terminal) : String :=
  "/v3/merchants/" ++ t.merchant_id

/-- Endpoint of the device listing call in `_resolve_device_by_serial`. -/
def devicesEndpoint (t : Terminal) : String :=
  "/v3/merchants/" ++ t.merchant_id ++ "/devices"

/-- One step of the linear scan in `_resolve_device_by_serial`:
`dev.get('serial') == self.device_serial` (a non-string or absent `serial`
field never equals the configured serial string). -/
def deviceMatches (serial : String) (dev : JVal) : Bool :=
  match jGet dev "serial" with
  | some (.str s) => s == serial
  | _ => false

/-- `devices.get('elements', [])`; a non-array `elements` value is out of
the remote API's contract and is modelled as the empty listing. -/
def elementsOf (devices : JVal) : List JVal :=
  match jGet devices "elements" with
  | some (.arr l) => l
  | _ => []

/-- Message of the `UserError` raised when no device matches the serial. -/
def device_not_found_msg (serial : String) : String :=
  "No device with serial \"" ++ serial ++ "\" found for this merchant."

/-- `_resolve_device_by_serial`: list the merchant's devices through a
management-mode dispatch, then return the first element whose `serial`
field equals the configured serial (the `for` loop returns on the first
match), else raise. -/
def resolve_device_by_serial (t : Terminal) (outcome : NetOutcome) :
    Except UErr JVal × List LogEntry :=
  match api_request t "GET" (devicesEndpoint t) none 30 false none outcome with
  | (.error e, logs) => (.error e, logs)
  | (.ok devices, logs) =>
    match (elementsOf devices).find? (deviceMatches t.device_serial) with
    | some dev => (.ok dev, logs)
    | none =>
        (.error (.userError (device_not_found_msg t.device_serial)), logs)

/-- `ping_device_connect`: Connect v1 ping; on success sets
`last_ping = fields.Datetime.now()` (the `now` parameter). -/
def ping_device_connect (t : Terminal) (outcome : NetOutcome) (now : Nat) :
    Except UErr JVal × Terminal × List LogEntry :=
  if t.api_token = "" then
    (.error (.userError "No API token. Run Authorize first."), t, [])
  else
    match api_request t "POST" "/connect/v1/device/ping" none 15 true none
        outcome with
    | (.error e, logs) => (.error e, t, logs)
    | (.ok body, logs) => (.ok body, { t with last_ping := some now }, logs)

/-- `check_device_online`: best-effort boolean probe; `UserError` from the
ping is downgraded to `false`. -/
def check_device_online (t : Terminal) (outcome : NetOutcome) (now : Nat) :
    Bool × Terminal × List LogEntry :=
  if t.device_serial = "" ∨ t.api_token = "" then
    (false, t, [])
  else
    match ping_device_connect t outcome now with
    | (.ok _, t2, logs) => (true, t2, logs)
    | (.error _, t2, logs) => (false, t2, logs)

/-- The `self.write` of step 1-2 results in `action_test_connection`:
merchant name (`merchant.get('name', '?')`), resolved device id
(`device.get('id')` — absent or null stores empty), and device model
(`device.get('productName', device.get('model', ''))`). -/
def tc_resolved_write (t : Terminal) (merchant device : JVal) : Terminal :=
  { t with
    merchant_name := pyCharOf (some ((jGet merchant "name").getD (.str "?")))
    clover_device_id := pyCharOf (jGet device "id")
    device_model := pyCharOf (some ((jGet device "productName").getD
        ((jGet device "model").getD (.str "")))) }

/-- Which of the two `display_notification` actions
`action_test_connection` returns (the notification payload itself is UI
presentation and is elided). -/
inductive TestResult where
  | pingOk
  | pingFailed
deriving Repr, DecidableEq

/-- Oracle for the up-to-three network calls of `action_test_connection`. -/
structure NetEnv where
  merchantResp : NetOutcome
  devicesResp : NetOutcome
  pingResp : NetOutcome

/-- `action_test_connection`: verify merchant, resolve device by serial,
then ping (non-fatal). The outer `except UserError` handler writes
`state = error` / `last_error` before re-raising; the ping branch writes
`state = testing` with `last_error` cleared or set to the ping's message,
and `last_ping` only on ping success (the second `Datetime.now()` of the
success write is identified with `now`). -/
def action_test_connection (t : Terminal) (env : NetEnv) (now : Nat) :
    Except UErr TestResult × Terminal × List LogEntry :=
  if t.api_token = "" then
    (.error (.userError "No API token. Click Authorize first."), t, [])
  else
    match api_request t "GET" (merchantEndpoint t) none 30 false none
        env.merchantResp with
    | (.error e, logs1) =>
        (.error e, { t with state := .error, last_error := errText e }, logs1)
    | (.ok merchant, logs1) =>
      match resolve_device_by_serial t env.devicesResp with
      | (.error e, logs2) =>
          (.error e, { t with state := .error, last_error := errText e },
           logs1 ++ logs2)
      | (.ok device, logs2) =>
        let t1 := tc_resolved_write t merchant device
        match ping_device_connect t1 env.pingResp now with
        | (.ok _, t2, logs3) =>
            (.ok .pingOk,
             { t2 with state := .testing, last_error := "",
                       last_ping := some now },
             logs1 ++ logs2 ++ logs3)
        | (.error pe, _, logs3) =>
            (.ok .pingFailed,
             { t1 with state := .testing, last_error := errText pe },
             logs1 ++ logs2 ++ logs3)

/-- `action_activate`: allowed from `testing`, `error` or `inactive` only;
writes `state = active` and clears `last_error`. -/
def action_activate (t : Terminal) : Except UErr Unit × Terminal :=
  if t.state = TState.testing ∨ t.state = TState.error
      ∨ t.state = TState.inactive then
    (.ok (), { t with state := .active, last_error := "" })
  else
    (.error (.userError "Test the connection first."), t)

/-- `action_deactivate`: unconditional move to `inactive`. -/
def action_deactivate (t : Terminal) : Terminal :=
  { t with state := .inactive }

/-- `action_reset_draft`: unconditional move to `draft`, clearing
`last_error`. -/
def action_reset_draft (t : Terminal) : Terminal :=
  { t with state := .draft, last_error := "" }

/-- Oracle for the OAuth token endpoint POST in `oauth_callback`
(a `requests.exceptions.RequestException` is the `reqException` case). -/
inductive OAuthOutcome where
  | response (status : Nat) (body : JVal)
  | reqException (msg : String)

/-- The audit row the controller creates after a successful token
exchange: code truncated to 8 characters, token redacted. -/
def oauth_log_entry (t : Terminal) (code : String) : LogEntry :=
  { endpoint := "/oauth/token"
    http_method := "POST"
    http_status := some 200
    request_payload := some (.obj
      [("client_id", .str t.app_id),
       ("code", .str (code.take 8 ++ "..."))])
    response_payload := some (.obj
      [("access_token", .str "***acquired***")])
    status := .success
    error_message := "" }

/-- Token-exchange part of `oauth_callback` (after the terminal lookup):
errors are the `msg` texts of the error-page redirects. A missing or falsy
`access_token` (`if not access_token:`) fails without updating the token;
only the success path creates an audit row. -/
def oauth_exchange (t : Terminal) (code : String) (outcome : OAuthOutcome) :
    Except String Unit × Terminal × List LogEntry :=
  match outcome with
  | .reqException msg => (.error ((msg).take 200), t, [])
  | .response status body =>
    if status ≠ 200 then
      (.error ("Token exchange failed: " ++ toString status), t, [])
    else
      match jGet body "access_token" with
      | some v =>
        if v.truthy then
          (.ok (), { t with api_token := v.render }, [oauth_log_entry t code])
        else
          (.error "No access_token in response", t, [])
      | none => (.error "No access_token in response", t, [])

/-- The public terminal-mutating operations of claim C3
(`action_authorize` only builds a URL and mutates nothing, so the token
exchange it leads to is the modelled operation). -/
inductive Op where
  | tokenExchange (code : String) (outcome : OAuthOutcome)
  | testConnection (env : NetEnv) (now : Nat)
  | activate
  | deactivate
  | resetDraft

/-- Effect of one public operation on the terminal record. -/
def applyOp (t : Terminal) : Op → Terminal
  | .tokenExchange code outcome => (oauth_exchange t code outcome).2.1
  | .testConnection env now => (action_test_connection t env now).2.1
  | .activate => (action_activate t).2
  | .deactivate => action_deactivate t
  | .resetDraft => action_reset_draft t

/-- Terminal reached after a sequence of public operations. -/
def runOps (t : Terminal) (ops : List Op) : Terminal :=
  ops.foldl applyOp t

/-- A freshly created terminal record: required configuration fields
filled in, no token acquired, no device resolved, state `draft`. -/
def t_fresh : Terminal :=
  { environment := .sandbox
    merchant_id := "M100"
    device_serial := "C046LT5264"
    clover_device_id := ""
    app_id := "APP1"
    app_secret := "SECRET1"
    raid := "RAID.1"
    api_token := ""
    state := .draft
    last_ping := none
    last_error := ""
    merchant_name := ""
    device_model := "" }

/-- A terminal with a token but no resolved device id (concrete-case
fixture). -/
def t_unresolved : Terminal :=
  { t_fresh with api_token := "tok-abc" }

/-- A terminal with a token and a resolved device id distinct from its
serial (concrete-case fixture). -/
def t_resolved : Terminal :=
  { t_fresh with api_token := "tok-abc", clover_device_id := "DEVUUID42",
                 state := .testing }

/- ------------------------------------------------------------------ -/
/- Theorems                                                           -/
/- ------------------------------------------------------------------ -/

theorem getConnectHeaders_ok (t : Terminal) (key : Option String)
    (h : t.device_serial ≠ "") :
    getConnectHeaders t key = .ok (connectHeaderList t key) := by
  rw [getConnectHeaders, if_neg h]

/-- C1: for every `_api_request` invocation whose header construction
succeeds (management mode always; device-control mode whenever the serial
gate passes), exactly one audit row is created and its final status is
`success`, `error` or `timeout` — never `pending` — on every outcome,
including non-2xx responses, timeouts, connection errors and unexpected
exceptions; the model returns the row together with the raised error, so
the row exists whenever the error reaches the caller. -/
theorem c1_dispatch_single_final_audit_row
    (t : Terminal) (method endpoint : String) (payload : Option JVal)
    (timeout : Nat) (connect : Bool) (key : Option String)
    (outcome : NetOutcome)
    (h : connect = true → t.device_serial ≠ "") :
    ∃ entry,
      (api_request t method endpoint payload timeout connect key outcome).2
        = [entry]
      ∧ (entry.status = LogStatus.success ∨ entry.status = LogStatus.error
         ∨ entry.status = LogStatus.timeout) := by
  obtain ⟨hs, hhdr⟩ :
      ∃ hs, (if connect then getConnectHeaders t key
             else .ok (getHeaders t) :
               Except UErr (List (String × String))) = .ok hs := by
    cases connect with
    | false => exact ⟨getHeaders t, rfl⟩
    | true =>
        exact ⟨connectHeaderList t key, by
          simp only [if_pos rfl]
          exact getConnectHeaders_ok t key (h rfl)⟩
  unfold api_request
  rw [hhdr]
  cases outcome with
  | response status body text =>
      dsimp only
      by_cases hst : status = 200 ∨ status = 201
      · rw [if_pos hst]
        exact ⟨_, rfl, Or.inl rfl⟩
      · rw [if_neg hst]
        exact ⟨_, rfl, Or.inr (Or.inl rfl)⟩
  | timeout => exact ⟨_, rfl, Or.inr (Or.inr rfl)⟩
  | connError => exact ⟨_, rfl, Or.inr (Or.inl rfl)⟩
  | otherExc m => exact ⟨_, rfl, Or.inr (Or.inl rfl)⟩

/-- C1 witness: concrete dispatch (management mode, timeout outcome). -/
theorem c1_witness :
    ∃ entry,
      (api_request t_fresh "GET" "/v3/merchants/M100" none 30 false none
          NetOutcome.timeout).2 = [entry]
      ∧ (entry.status = LogStatus.success ∨ entry.status = LogStatus.error
         ∨ entry.status = LogStatus.timeout) :=
  c1_dispatch_single_final_audit_row t_fresh "GET" "/v3/merchants/M100"
    none 30 false none NetOutcome.timeout (by simp)

/-- C2: with a non-empty access token, `action_test_connection` ends in
exactly one of four outcomes: merchant-lookup failure gives `state = error`
with that failure in `last_error`; device-resolution failure (including
serial not found) the same; ping failure after merchant and device are
confirmed gives `state = testing`, `last_error` set to the ping's message
and `last_ping` unchanged; ping success gives `state = testing`,
`last_ping` updated to the current time and `last_error` cleared. -/
theorem c2_test_connection_outcomes
    (t : Terminal) (env : NetEnv) (now : Nat) (htok : t.api_token ≠ "") :
    (∀ e logs,
       api_request t "GET" (merchantEndpoint t) none 30 false none
           env.merchantResp = (.error e, logs) →
       (action_test_connection t env now).2.1.state = TState.error ∧
       (action_test_connection t env now).2.1.last_error = errText e) ∧
    (∀ m logs1 e logs2,
       api_request t "GET" (merchantEndpoint t) none 30 false none
           env.merchantResp = (.ok m, logs1) →
       resolve_device_by_serial t env.devicesResp = (.error e, logs2) →
       (action_test_connection t env now).2.1.state = TState.error ∧
       (action_test_connection t env now).2.1.last_error = errText e) ∧
    (∀ m logs1 dev logs2 pe t2 logs3,
       api_request t "GET" (merchantEndpoint t) none 30 false none
           env.merchantResp = (.ok m, logs1) →
       resolve_device_by_serial t env.devicesResp = (.ok dev, logs2) →
       ping_device_connect (tc_resolved_write t m dev) env.pingResp now
           = (.error pe, t2, logs3) →
       (action_test_connection t env now).1 = .ok TestResult.pingFailed ∧
       (action_test_connection t env now).2.1.state = TState.testing ∧
       (action_test_connection t env now).2.1.last_error = errText pe ∧
       (action_test_connection t env now).2.1.last_ping = t.last_ping) ∧
    (∀ m logs1 dev logs2 body t2 logs3,
       api_request t "GET" (merchantEndpoint t) none 30 false none
           env.merchantResp = (.ok m, logs1) →
       resolve_device_by_serial t env.devicesResp = (.ok dev, logs2) →
       ping_device_connect (tc_resolved_write t m dev) env.pingResp now
           = (.ok body, t2, logs3) →
       (action_test_connection t env now).1 = .ok TestResult.pingOk ∧
       (action_test_connection t env now).2.1.state = TState.testing ∧
       (action_test_connection t env now).2.1.last_ping = some now ∧
       (action_test_connection t env now).2.1.last_error = "") := by
  refine ⟨?_, ?_, ?_, ?_⟩
  · intro e logs h1
    unfold action_test_connection
    rw [if_neg htok, h1]
    exact ⟨rfl, rfl⟩
  · intro m logs1 e logs2 h1 h2
    unfold action_test_connection
    rw [if_neg htok, h1]
    dsimp only
    rw [h2]
    exact ⟨rfl, rfl⟩
  · intro m logs1 dev logs2 pe t2 logs3 h1 h2 h3
    unfold action_test_connection
    rw [if_neg htok, h1]
    dsimp only
    rw [h2]
    dsimp only
    rw [h3]
    exact ⟨rfl, rfl, rfl, rfl⟩
  · intro m logs1 dev logs2 body t2 logs3 h1 h2 h3
    unfold action_test_connection
    rw [if_neg htok, h1]
    dsimp only
    rw [h2]
    dsimp only
    rw [h3]
    exact ⟨rfl, rfl, rfl, rfl⟩

/-- Concrete oracle for the C2 witness: merchant found, serial present in
the listing, ping answered 200. -/
def env_w : NetEnv :=
  { merchantResp := .response 200 (.obj [("name", .str "Shop")]) ""
    devicesResp := .response 200 (.obj [("elements", .arr
      [.obj [("serial", .str "C046LT5264"), ("id", .str "UUID1"),
             ("productName", .str "Flex 4")]])]) ""
    pingResp := .response 200 (.obj []) "" }

/-- C2 witness: concrete full-success run (outcome four). -/
theorem c2_witness :
    (action_test_connection t_unresolved env_w 42).1
        = .ok TestResult.pingOk ∧
    (action_test_connection t_unresolved env_w 42).2.1.state
        = TState.testing ∧
    (action_test_connection t_unresolved env_w 42).2.1.last_ping
        = some 42 ∧
    (action_test_connection t_unresolved env_w 42).2.1.last_error = "" :=
  (c2_test_connection_outcomes t_unresolved env_w 42
      (by decide)).2.2.2 _ _ _ _ _ _ _ rfl rfl rfl

theorem test_connection_state_cases (t : Terminal) (env : NetEnv)
    (now : Nat) :
    (action_test_connection t env now).2.1 = t ∨
    (action_test_connection t env now).2.1.state = TState.error ∨
    (action_test_connection t env now).2.1.state = TState.testing := by
  unfold action_test_connection
  split
  · exact Or.inl rfl
  · split
    · exact Or.inr (Or.inl rfl)
    · split
      · exact Or.inr (Or.inl rfl)
      · dsimp only
        split
        · exact Or.inr (Or.inr rfl)
        · exact Or.inr (Or.inr rfl)

theorem oauth_exchange_terminal_cases (t : Terminal) (code : String)
    (outcome : OAuthOutcome) :
    (oauth_exchange t code outcome).2.1 = t ∨
    ∃ tok, (oauth_exchange t code outcome).2.1
        = { t with api_token := tok } := by
  unfold oauth_exchange
  split
  · exact Or.inl rfl
  · split
    · exact Or.inl rfl
    · split
      · split
        · exact Or.inr ⟨_, rfl⟩
        · exact Or.inl rfl
      · exact Or.inl rfl

theorem applyOp_active_no_error (t : Terminal) (op : Op)
    (h : t.state = TState.active → t.last_error = "") :
    (applyOp t op).state = TState.active →
    (applyOp t op).last_error = "" := by
  cases op with
  | tokenExchange code outcome =>
      simp only [applyOp]
      rcases oauth_exchange_terminal_cases t code outcome with heq | ⟨tok, heq⟩
      · rw [heq]; exact h
      · rw [heq]; exact h
  | testConnection env now =>
      simp only [applyOp]
      rcases test_connection_state_cases t env now with heq | hs | hs
      · rw [heq]; exact h
      · intro hx; rw [hs] at hx; exact absurd hx (by decide)
      · intro hx; rw [hs] at hx; exact absurd hx (by decide)
  | activate =>
      simp only [applyOp]
      unfold action_activate
      split
      · intro _; rfl
      · exact h
  | deactivate =>
      simp only [applyOp]
      unfold action_deactivate
      exact fun hx => TState.noConfusion hx
  | resetDraft =>
      simp only [applyOp]
      unfold action_reset_draft
      exact fun hx => TState.noConfusion hx

/-- C3 counterexample: starting from a fresh draft terminal (empty token,
no resolved device id), the operation sequence `deactivate; activate` is
accepted by the code and reaches `state = active` with an empty access
token and an empty resolved device id — the claimed invariant fails.
(`action_deactivate` is unconditional, so `inactive` is reachable from
`draft`, and `action_activate` accepts `inactive`.) -/
theorem c3_counterexample :
    (runOps t_fresh [Op.deactivate, Op.activate]).state = TState.active ∧
    (runOps t_fresh [Op.deactivate, Op.activate]).api_token = "" ∧
    (runOps t_fresh [Op.deactivate, Op.activate]).clover_device_id = "" :=
  ⟨rfl, rfl, rfl⟩

/-- C3 amended: the invariant that does hold for every terminal reachable
by the public operations (token exchange, test connection, activate,
deactivate, reset to draft) is that `state = active` implies `last_error`
is cleared; the original consequent (non-empty token and device id) is
refuted by the counterexample. -/
theorem c3_active_invariant_amended (t : Terminal) (ops : List Op)
    (h : t.state = TState.active → t.last_error = "") :
    (runOps t ops).state = TState.active →
    (runOps t ops).last_error = "" := by
  induction ops generalizing t with
  | nil => exact h
  | cons op rest ih => exact ih (applyOp t op) (applyOp_active_no_error t op h)

/-- C3 amended witness: the invariant evaluated on a concrete reachable
terminal. -/
theorem c3_amended_witness :
    (runOps t_fresh [Op.deactivate, Op.activate]).last_error = "" :=
  c3_active_invariant_amended t_fresh [Op.deactivate, Op.activate]
    (by decide) (by decide)

/-- C4 counterexample: a device-control dispatch on a terminal whose
resolved device id is absent (empty `clover_device_id`) but whose serial is
set does not fail fast — it performs the network call (one audit row with a
real HTTP status) and can even succeed. The code gates on `device_serial`,
not on the resolved device id. -/
theorem c4_counterexample :
    t_unresolved.clover_device_id = "" ∧
    (api_request t_unresolved "POST" "/connect/v1/device/ping" none 15 true
        none (NetOutcome.response 200 (JVal.obj []) "")).1
      = Except.ok (JVal.obj []) ∧
    (api_request t_unresolved "POST" "/connect/v1/device/ping" none 15 true
        none (NetOutcome.response 200 (JVal.obj []) "")).2.length = 1 :=
  ⟨rfl, rfl, rfl⟩

/-- C4 amended: a dispatch in device-control mode with an absent device
serial fails fast with the `Device serial not set.` error and performs zero
network calls (no audit row, result independent of the network oracle);
with the serial present it proceeds to the network call (exactly one audit
row). The gate is the configured serial, not the resolved device id. -/
theorem c4_amended_serial_gate
    (t : Terminal) (method endpoint : String) (payload : Option JVal)
    (timeout : Nat) (key : Option String) (outcome : NetOutcome) :
    (t.device_serial = "" →
       api_request t method endpoint payload timeout true key outcome
         = (.error (.userError "Device serial not set."), [])) ∧
    (t.device_serial ≠ "" →
       (api_request t method endpoint payload timeout true key
           outcome).2.length = 1) := by
  constructor
  · intro hs
    unfold api_request
    rw [if_pos rfl]
    unfold getConnectHeaders
    rw [if_pos hs]
  · intro hs
    unfold api_request
    rw [if_pos rfl, getConnectHeaders_ok t key hs]
    cases outcome with
    | response status body text =>
        dsimp only
        by_cases hst : status = 200 ∨ status = 201
        · rw [if_pos hst]; rfl
        · rw [if_neg hst]; rfl
    | timeout => rfl
    | connError => rfl
    | otherExc m => rfl

/-- C4 amended witness: both halves at concrete terminals. -/
theorem c4_amended_witness :
    api_request { t_fresh with device_serial := "" } "POST"
        "/connect/v1/device/ping" none 15 true none NetOutcome.timeout
      = (.error (.userError "Device serial not set."), []) ∧
    (api_request t_fresh "POST" "/connect/v1/device/ping" none 15 true none
        NetOutcome.timeout).2.length = 1 :=
  ⟨(c4_amended_serial_gate { t_fresh with device_serial := "" } "POST"
      "/connect/v1/device/ping" none 15 none NetOutcome.timeout).1 rfl,
   (c4_amended_serial_gate t_fresh "POST" "/connect/v1/device/ping" none 15
      none NetOutcome.timeout).2 (by decide)⟩

/-- C5 counterexample: on a terminal whose resolved device id
(`clover_device_id = "DEVUUID42"`) differs from its serial, the
device-control headers carry the serial — not the resolved id — in
`X-Clover-Device-Id`, refuting the claim as stated. -/
theorem c5_counterexample :
    t_resolved.clover_device_id = "DEVUUID42" ∧
    ("X-Clover-Device-Id", "C046LT5264")
        ∈ headersOf (getConnectHeaders t_resolved none) ∧
    ("X-Clover-Device-Id", "DEVUUID42")
        ∉ headersOf (getConnectHeaders t_resolved none) := by
  refine ⟨rfl, by decide, by decide⟩

/-- C5 amended: for every device-control dispatch whose serial gate passes,
the headers carry the terminal's device serial in `X-Clover-Device-Id`, the
remote application id in `X-POS-Id`, and an `Idempotency-Key` header
exactly when a non-empty idempotency key is supplied (Python truthiness:
an empty-string key adds no header). -/
theorem c5_amended_connect_headers (t : Terminal) (key : Option String)
    (hs : t.device_serial ≠ "") :
    getConnectHeaders t key = .ok (connectHeaderList t key) ∧
    ("X-Clover-Device-Id", t.device_serial) ∈ connectHeaderList t key ∧
    ("X-POS-Id", t.raid) ∈ connectHeaderList t key ∧
    ((∃ k, key = some k ∧ k ≠ "") ↔
      ∃ v, ("Idempotency-Key", v) ∈ connectHeaderList t key) := by
  refine ⟨getConnectHeaders_ok t key hs, ?_, ?_, ?_⟩
  · unfold connectHeaderList; simp
  · unfold connectHeaderList; simp
  · constructor
    · rintro ⟨k, rfl, hk⟩
      refine ⟨k, ?_⟩
      unfold connectHeaderList
      simp [hk]
    · rintro ⟨v, hv⟩
      unfold connectHeaderList at hv
      cases key with
      | none => simp at hv
      | some k =>
        by_cases hk : k = ""
        · subst hk; simp at hv
        · exact ⟨k, rfl, hk⟩

/-- C5 amended witness: concrete headers with a non-empty idempotency
key. -/
theorem c5_amended_witness :
    getConnectHeaders t_resolved (some "IK-7")
        = .ok (connectHeaderList t_resolved (some "IK-7")) ∧
    ("X-Clover-Device-Id", t_resolved.device_serial)
        ∈ connectHeaderList t_resolved (some "IK-7") ∧
    ("X-POS-Id", t_resolved.raid)
        ∈ connectHeaderList t_resolved (some "IK-7") ∧
    ((∃ k, (some "IK-7" : Option String) = some k ∧ k ≠ "") ↔
      ∃ v, ("Idempotency-Key", v)
          ∈ connectHeaderList t_resolved (some "IK-7")) :=
  c5_amended_connect_headers t_resolved (some "IK-7") (by decide)

/-- C6 counterexample: a token exchange answered with HTTP 500 fails and
leaves the terminal unchanged, but — contrary to the claim — records no
audit entry at all: the controller only creates the transaction-log row on
the success path. -/
theorem c6_counterexample :
    (oauth_exchange t_fresh "SECRETCODE123456"
        (OAuthOutcome.response 500 (JVal.obj []))).2.2 = [] ∧
    (oauth_exchange t_fresh "SECRETCODE123456"
        (OAuthOutcome.response 500 (JVal.obj []))).1
      = Except.error "Token exchange failed: 500" ∧
    (oauth_exchange t_fresh "SECRETCODE123456"
        (OAuthOutcome.response 500 (JVal.obj []))).2.1 = t_fresh :=
  ⟨rfl, rfl, rfl⟩

/-- C6 amended: a non-200 response or a body without a usable
`access_token` fails with a descriptive error, does not update the
terminal's token, and writes no audit entry; only a successful exchange
writes the (single) audit entry, in which the authorization code is
truncated to 8 characters and the token is redacted, so the raw secrets
never appear in the audit trail. -/
theorem c6_amended_oauth_exchange (t : Terminal) (code : String)
    (outcome : OAuthOutcome) :
    (∀ status body, outcome = .response status body → status ≠ 200 →
       oauth_exchange t code outcome
         = (.error ("Token exchange failed: " ++ toString status), t, [])) ∧
    (∀ body, outcome = .response 200 body →
       (∀ v, jGet body "access_token" = some v → v.truthy = false) →
       oauth_exchange t code outcome
         = (.error "No access_token in response", t, [])) ∧
    (∀ body tok, outcome = .response 200 body →
       jGet body "access_token" = some (.str tok) → tok ≠ "" →
       oauth_exchange t code outcome
         = (.ok (), { t with api_token := tok },
            [oauth_log_entry t code]) ∧
       (oauth_log_entry t code).request_payload
         = some (.obj [("client_id", .str t.app_id),
                       ("code", .str (code.take 8 ++ "..."))]) ∧
       (oauth_log_entry t code).response_payload
         = some (.obj [("access_token", .str "***acquired***")])) := by
  refine ⟨?_, ?_, ?_⟩
  · rintro status body rfl hst
    unfold oauth_exchange
    dsimp only
    rw [if_pos hst]
  · rintro body rfl hv
    unfold oauth_exchange
    dsimp only
    rw [if_neg (by decide)]
    cases hg : jGet body "access_token" with
    | none => rfl
    | some v =>
        have hf := hv v hg
        dsimp only
        rw [hf, if_neg (by decide)]
  · rintro body tok rfl hg htok
    unfold oauth_exchange
    dsimp only
    rw [if_neg (by decide), hg]
    dsimp only
    have htr : (JVal.str tok).truthy = true := by
      simp only [JVal.truthy]
      exact decide_eq_true htok
    rw [htr, if_pos rfl]
    exact ⟨rfl, rfl, rfl⟩

/-- C6 amended witness: the three branches at concrete inputs —
HTTP 401; HTTP 200 without `access_token`; HTTP 200 with
`access_token = "tok123"` (token stored, audit row truncated and
redacted). -/
theorem c6_amended_witness :
    oauth_exchange t_fresh "AUTHCODE-LONG-SECRET"
        (OAuthOutcome.response 401 (JVal.obj []))
      = (.error "Token exchange failed: 401", t_fresh, []) ∧
    oauth_exchange t_fresh "AUTHCODE-LONG-SECRET"
        (OAuthOutcome.response 200 (JVal.obj [("foo", .str "bar")]))
      = (.error "No access_token in response", t_fresh, []) ∧
    oauth_exchange t_fresh "AUTHCODE-LONG-SECRET"
        (OAuthOutcome.response 200
          (JVal.obj [("access_token", .str "tok123")]))
      = (.ok (), { t_fresh with api_token := "tok123" },
         [oauth_log_entry t_fresh "AUTHCODE-LONG-SECRET"]) :=
  ⟨(c6_amended_oauth_exchange t_fresh "AUTHCODE-LONG-SECRET"
      (OAuthOutcome.response 401 (JVal.obj []))).1 401 (JVal.obj []) rfl
      (by decide),
   (c6_amended_oauth_exchange t_fresh "AUTHCODE-LONG-SECRET"
      (OAuthOutcome.response 200 (JVal.obj [("foo", .str "bar")]))).2.1
      (JVal.obj [("foo", .str "bar")]) rfl
      (fun v hv => Option.noConfusion hv),
   ((c6_amended_oauth_exchange t_fresh "AUTHCODE-LONG-SECRET"
      (OAuthOutcome.response 200
        (JVal.obj [("access_token", .str "tok123")]))).2.2
      (JVal.obj [("access_token", .str "tok123")]) "tok123" rfl rfl
      (by decide)).1⟩

theorem deviceMatches_spec (s : String) (d : JVal)
    (h : deviceMatches s d = true) :
    jGet d "serial" = some (JVal.str s) := by
  unfold deviceMatches at h
  split at h
  next s2 heq => rw [heq, eq_of_beq h]
  next => exact absurd h (by decide)

/-- C7: `_resolve_device_by_serial` lists the merchant's devices through a
management-mode dispatch and returns the first element of the listing
whose `serial` field exactly equals the configured serial (with two
elements sharing the serial, the earlier one wins); if no element matches
it fails with the device-not-found error carrying the serial; any returned
element's `serial` field equals the configured serial. -/
theorem c7_resolve_first_match (t : Terminal) (outcome : NetOutcome)
    (devices : JVal) (logs : List LogEntry)
    (h : api_request t "GET" (devicesEndpoint t) none 30 false none outcome
          = (.ok devices, logs)) :
    (∀ dev, (elementsOf devices).find? (deviceMatches t.device_serial)
          = some dev →
       resolve_device_by_serial t outcome = (.ok dev, logs)) ∧
    (∀ pre dev rest, elementsOf devices = pre ++ dev :: rest →
       (∀ d, d ∈ pre → deviceMatches t.device_serial d = false) →
       deviceMatches t.device_serial dev = true →
       resolve_device_by_serial t outcome = (.ok dev, logs)) ∧
    ((∀ d, d ∈ elementsOf devices →
          deviceMatches t.device_serial d = false) →
       resolve_device_by_serial t outcome
         = (.error (.userError (device_not_found_msg t.device_serial)),
            logs)) ∧
    (∀ dev logs2, resolve_device_by_serial t outcome = (.ok dev, logs2) →
       jGet dev "serial" = some (JVal.str t.device_serial)) := by
  have hbase : ∀ r, (elementsOf devices).find? (deviceMatches t.device_serial)
        = r →
      resolve_device_by_serial t outcome
        = (match r with
           | some dev => (.ok dev, logs)
           | none => (.error (.userError
               (device_not_found_msg t.device_serial)), logs)) := by
    intro r hr
    unfold resolve_device_by_serial
    rw [h]
    dsimp only
    rw [hr]
  refine ⟨?_, ?_, ?_, ?_⟩
  · intro dev hf
    exact hbase (some dev) hf
  · intro pre dev rest hsplit hne hmatch
    have hpre : pre.find? (deviceMatches t.device_serial) = none :=
      List.find?_eq_none.mpr (fun x hx => by
        rw [hne x hx]; exact Bool.false_ne_true)
    have hf : (elementsOf devices).find? (deviceMatches t.device_serial)
        = some dev := by
      rw [hsplit, List.find?_append, hpre, Option.none_or,
          List.find?_cons_of_pos _ hmatch]
    exact hbase (some dev) hf
  · intro hall
    have hf : (elementsOf devices).find? (deviceMatches t.device_serial)
        = none :=
      List.find?_eq_none.mpr (fun x hx => by
        rw [hall x hx]; exact Bool.false_ne_true)
    exact hbase none hf
  · intro dev logs2 heq
    cases hf : (elementsOf devices).find? (deviceMatches t.device_serial) with
    | none =>
        rw [hbase none hf] at heq
        exact absurd (congrArg Prod.fst heq) (by simp)
    | some d =>
        rw [hbase (some d) hf] at heq
        have hd : d = dev := by
          have h1 := congrArg Prod.fst heq
          simp only at h1
          exact Except.ok.inj h1
        cases hd
        exact deviceMatches_spec _ _ (List.find?_some hf)

/-- Concrete device listing for the C7 witness: two devices share the
configured serial; the first one (id `FIRST`) must win. -/
def devices_w : JVal :=
  .obj [("elements", .arr
    [.obj [("serial", .str "C046LT5264"), ("id", .str "FIRST")],
     .obj [("serial", .str "C046LT5264"), ("id", .str "SECOND")]])]

/-- C7 witness: with two devices sharing the serial, the resolver returns
the first one. -/
theorem c7_witness :
    resolve_device_by_serial t_unresolved
        (NetOutcome.response 200 devices_w "")
      = (.ok (.obj [("serial", .str "C046LT5264"), ("id", .str "FIRST")]),
         (api_request t_unresolved "GET" (devicesEndpoint t_unresolved)
            none 30 false none (NetOutcome.response 200 devices_w "")).2) :=
  (c7_resolve_first_match t_unresolved
      (NetOutcome.response 200 devices_w "") devices_w _ rfl).1
    _ rfl

/-- C8: `action_activate` succeeds exactly when the state is `testing`,
`error` or `inactive`, in which case it moves to `active` and clears
`last_error`; from any other state (in particular `draft`,
"not configured") it fails with the precondition error and changes
nothing. -/
theorem c8_activate_gate (t : Terminal) :
    ((t.state = TState.testing ∨ t.state = TState.error
        ∨ t.state = TState.inactive) →
       action_activate t
         = (.ok (), { t with state := TState.active, last_error := "" })) ∧
    (¬(t.state = TState.testing ∨ t.state = TState.error
        ∨ t.state = TState.inactive) →
       action_activate t
         = (.error (.userError "Test the connection first."), t)) := by
  constructor
  · intro hs
    unfold action_activate
    rw [if_pos hs]
  · intro hs
    unfold action_activate
    rw [if_neg hs]

/-- C8 witness: activation succeeds from `testing` (clearing `last_error`)
and fails from `draft` leaving the record unchanged. -/
theorem c8_witness :
    action_activate t_resolved
      = (.ok (), { t_resolved with
                   state := TState.active
                   last_error := "" }) ∧
    action_activate t_fresh
      = (.error (.userError "Test the connection first."), t_fresh) :=
  ⟨(c8_activate_gate t_resolved).1 (Or.inl rfl),
   (c8_activate_gate t_fresh).2 (by decide)⟩

/-- C9: `check_device_online` never raises: with a missing device serial
or access token it returns `false` immediately — terminal unchanged, no
network call, hence no device resolution — and whenever the underlying
ping fails (any transport or application error, all surfaced as
`UserError`) it returns `false`. The guard equality returns the terminal
unchanged, so repeated calls with an empty token keep returning
`false`. -/
theorem c9_check_online_guard (t : Terminal) (outcome : NetOutcome)
    (now : Nat) :
    (t.device_serial = "" ∨ t.api_token = "" →
       check_device_online t outcome now = (false, t, [])) ∧
    (∀ e t2 logs,
       ping_device_connect t outcome now = (.error e, t2, logs) →
       (check_device_online t outcome now).1 = false) := by
  constructor
  · intro hs
    unfold check_device_online
    rw [if_pos hs]
  · intro e t2 logs hp
    unfold check_device_online
    by_cases hs : t.device_serial = "" ∨ t.api_token = ""
    · rw [if_pos hs]
    · rw [if_neg hs]
      rw [hp]

/-- C9 witness: empty token, concrete oracle. -/
theorem c9_witness :
    check_device_online t_fresh NetOutcome.timeout 5 = (false, t_fresh, []) :=
  (c9_check_online_guard t_fresh NetOutcome.timeout 5).1 (Or.inr rfl)

/-- C10: the best-effort probe is not read-only — when the ping call
succeeds it returns `true` and updates exactly `last_ping` to the current
time (via `ping_device_connect`); when the ping call fails it returns
`false` with every terminal field unchanged. -/
theorem c10_check_online_frame (t : Terminal) (outcome : NetOutcome)
    (now : Nat) (hs : t.device_serial ≠ "") (ht : t.api_token ≠ "") :
    (∀ body logs,
       api_request t "POST" "/connect/v1/device/ping" none 15 true none
           outcome = (.ok body, logs) →
       check_device_online t outcome now
         = (true, { t with last_ping := some now }, logs)) ∧
    (∀ e logs,
       api_request t "POST" "/connect/v1/device/ping" none 15 true none
           outcome = (.error e, logs) →
       check_device_online t outcome now = (false, t, logs)) := by
  have hor : ¬(t.device_serial = "" ∨ t.api_token = "") := by
    rintro (hx | hx)
    · exact hs hx
    · exact ht hx
  constructor
  · intro body logs hp
    unfold check_device_online
    rw [if_neg hor]
    unfold ping_device_connect
    rw [if_neg ht]
    rw [hp]
  · intro e logs hp
    unfold check_device_online
    rw [if_neg hor]
    unfold ping_device_connect
    rw [if_neg ht]
    rw [hp]

/-- C10 witness: concrete successful ping updates `last_ping` and returns
`true`. -/
theorem c10_witness :
    check_device_online t_unresolved (NetOutcome.response 200 (.obj []) "") 9
      = (true, { t_unresolved with last_ping := some 9 },
         (api_request t_unresolved "POST" "/connect/v1/device/ping" none 15
            true none (NetOutcome.response 200 (.obj []) "")).2) :=
  (c10_check_online_frame t_unresolved
      (NetOutcome.response 200 (.obj []) "") 9 (by decide) (by decide)).1
    _ _ rfl
